import Mathlib

set_option linter.unusedVariables false

/-!
Verification of the Avatar Preparation Pipeline and Session State Machine
(repository AvatarChat).

The development shallowly embeds the pipeline core of src/app.py and the
two service functions it drives (generate_cartoon_variations from
src/services/image_service.py, _validate_personality_data from
src/services/chat_service.py).  Modelling conventions:

* The filesystem of generated artifacts is a list of existing path strings;
  path existence is list membership.
* The uploads directory is a list of structured files (stem, extension,
  contents); Python path objects are rendered as "uploads/" ++ stem ++ ext.
* File contents are strings, and the MD5 fingerprint of a file is modelled
  as an injective fingerprint (the contents themselves); the claims under
  study quantify over identical byte contents, never over hash collisions.
* External generator calls (Alibaba segmentation, DashScope image/video
  synthesis, LLM personality generation) are oracles passed as arguments:
  an Option value whose none case models the Python call raising an
  exception and whose some case is the returned value.
* Python dictionaries are association lists in insertion order; arbitrary
  JSON-like Python values are the PyVal type below.
* Exceptions caught by the source are modelled by the Option oracles; the
  Lean functions are total, mirroring the fact that every handler wraps its
  body in a try/except boundary.
-/

/-- PyVal models an arbitrary JSON-like Python value as handled by the
repository (strings, integers, booleans, None, lists, dicts). -/
inductive PyVal : Type where
  | str (s : String)
  | int (n : Int)
  | bool (b : Bool)
  | none
  | list (xs : List PyVal)
  | dict (entries : List (String × PyVal))

mutual

/-- pyStr models the Python built-in str() applied to a PyVal, as used in
_validate_personality_data (src/services/chat_service.py line 457).  The
rendering of composite values is Python-repr-like; no claim depends on the
exact rendering of composites, only on the fact that the result is a
string. -/
def pyStr : PyVal → String
  | .str s => s
  | .int n => toString n
  | .bool b => if b then "True" else "False"
  | .none => "None"
  | .list xs => "[" ++ pyStrList xs ++ "]"
  | .dict es => "\x7b" ++ pyStrDict es ++ "\x7d"

/-- pyStrList renders the elements of a Python list, comma separated. -/
def pyStrList : List PyVal → String
  | [] => ""
  | [x] => pyStr x
  | x :: y :: rest => pyStr x ++ ", " ++ pyStrList (y :: rest)

/-- pyStrDict renders the entries of a Python dict, comma separated. -/
def pyStrDict : List (String × PyVal) → String
  | [] => ""
  | [(k, v)] => k ++ ": " ++ pyStr v
  | (k, v) :: e :: rest => k ++ ": " ++ pyStr v ++ ", " ++ pyStrDict (e :: rest)

end

/-- defaultPersonality is the fixed default personality dict written out
literally at src/app.py lines 211-215, 222-226, 233-237, 641-645, 652-656,
660-664 (one shared literal value). -/
def defaultPersonality : PyVal :=
  .dict [("personality", .list [.str "友善热情", .str "乐于助人", .str "充满好奇心", .str "积极乐观"]),
         ("habits", .list [.str "喜欢学习新知识", .str "经常为朋友着想"]),
         ("voice_tone", .str "温和")]

/-- MissingEntry is the type of values stored in the missing_files dict of
check_preparation_completeness: the variations and expressions keys hold a
list of missing paths, while the personality key holds a single path
string (src/app.py line 153). -/
inductive MissingEntry : Type where
  | pathList (ps : List String)
  | singlePath (p : String)
deriving DecidableEq, Repr

/-- requiredVariationPaths gives the four variation files required by
check_preparation_completeness (src/app.py lines 118-123). -/
def requiredVariationPaths (image_uuid : String) : List String :=
  [s!"generated/avatars/{image_uuid}_variation_1.png",
   s!"generated/avatars/{image_uuid}_variation_2.png",
   s!"generated/avatars/{image_uuid}_variation_3.png",
   s!"generated/avatars/{image_uuid}_variation_4.png"]

/-- requiredExpressionPaths gives the three expression files required by
check_preparation_completeness (src/app.py lines 124-128). -/
def requiredExpressionPaths (image_uuid : String) : List String :=
  [s!"generated/expressions/{image_uuid}_happy.mp4",
   s!"generated/expressions/{image_uuid}_sad.mp4",
   s!"generated/expressions/{image_uuid}_surprised.mp4"]

/-- personalityPath gives the single personality file required by
check_preparation_completeness (src/app.py line 129). -/
def personalityPath (image_uuid : String) : String :=
  s!"generated/personality/{image_uuid}_personality.json"

/-- check_preparation_completeness embeds src/app.py lines 114-160.  The
parameter gen is the set of generated files existing on disk at call time
(existence of a path is membership).  It returns the missing_files dict in
insertion order (variations, expressions, personality) and the completion
percentage.  The Python percentage int((completed/3)*100) is evaluated in
double floats; for the four reachable numerator values 0,1,2,3 the result
coincides with natural division (completed*100)/3, which is used here
(0, 33, 66, 100). -/
def check_preparation_completeness (image_uuid : String) (gen : List String) :
    List (String × MissingEntry) × Nat :=
  let missing_variations :=
    (requiredVariationPaths image_uuid).filter (fun p => !(gen.contains p))
  let missing_expressions :=
    (requiredExpressionPaths image_uuid).filter (fun p => !(gen.contains p))
  let missing_files :=
    (if missing_variations.isEmpty then [] else
      [("variations", MissingEntry.pathList missing_variations)]) ++
    (if missing_expressions.isEmpty then [] else
      [("expressions", MissingEntry.pathList missing_expressions)]) ++
    (if gen.contains (personalityPath image_uuid) then [] else
      [("personality", MissingEntry.singlePath (personalityPath image_uuid))])
  let total_categories := 3
  let completed_categories := total_categories - missing_files.length
  (missing_files, (completed_categories * 100) / 3)

/-- pyLookup models Python dict key access / membership over an association
list (first binding wins; Python dicts cannot hold duplicate keys). -/
def pyLookup (es : List (String × PyVal)) (k : String) : Option PyVal :=
  match es with
  | [] => Option.none
  | (k2, v) :: rest => if k2 = k then some v else pyLookup rest k

/-- validatedTraits is the value the personality key of the validated dict
ends up with (src/services/chat_service.py lines 456-457): the default
empty list, overwritten by the first 5 entries of the incoming personality
list, each passed through str(), when the incoming value is a dict whose
personality key holds a list. -/
def validatedTraits (data : PyVal) : PyVal :=
  match data with
  | .dict es =>
    match pyLookup es "personality" with
    | some (.list xs) => .list ((xs.take 5).map (fun t => .str (pyStr t)))
    | _ => .list []
  | _ => .list []

/-- validatedHabits is the value the habits key of the validated dict ends
up with (src/services/chat_service.py lines 459-460): the default empty
list, overwritten by the first 3 entries of the incoming habits list, each
passed through str(), when the incoming value is a dict whose habits key
holds a list. -/
def validatedHabits (data : PyVal) : PyVal :=
  match data with
  | .dict es =>
    match pyLookup es "habits" with
    | some (.list xs) => .list ((xs.take 3).map (fun t => .str (pyStr t)))
    | _ => .list []
  | _ => .list []

/-- validatedVoiceTone is the value the voice_tone key of the validated
dict ends up with (src/services/chat_service.py lines 462-463): the
default "friendly", overwritten by the incoming voice_tone value when the
incoming value is a dict whose voice_tone key holds a string. -/
def validatedVoiceTone (data : PyVal) : PyVal :=
  match data with
  | .dict es =>
    match pyLookup es "voice_tone" with
    | some (.str s) => .str s
    | _ => .str "friendly"
  | _ => .str "friendly"

/-- _validate_personality_data embeds src/services/chat_service.py lines
439-465: normalize an arbitrary upstream value into a dict with exactly the
keys personality (at most 5 strings), habits (at most 3 strings) and
voice_tone (a string), starting from the fixed defaults. -/
def _validate_personality_data (data : PyVal) : List (String × PyVal) :=
  [("personality", validatedTraits data),
   ("habits", validatedHabits data),
   ("voice_tone", validatedVoiceTone data)]

/-- MissingSet records which keys are present in the missing_files dict
handed to complete_missing_preparation; the repair code only tests key
membership, never the stored values (src/app.py lines 168, 178, 189, 201). -/
structure MissingSet : Type where
  segmented_image : Bool
  variations : Bool
  expressions : Bool
  personality : Bool
deriving DecidableEq, Repr

/-- RepairOracle carries the outcome of each external generator call made
by complete_missing_preparation; none models the call raising an
exception. -/
structure RepairOracle : Type where
  segment_image : Option String
  cartoon_variations : Option (List String)
  expressions_gen : Option (List (String × String))
  generate_personality : Option PyVal

/-- RepairResult is the completed_files dict built by
complete_missing_preparation; a none field means the key is absent from
the dict. -/
structure RepairResult : Type where
  segmented_image : Option String
  variations : Option (List String)
  expressions : Option (List (String × String))
  personality : Option PyVal

/-- RepairCalls records which generator calls the repair run actually
dispatched, and for the personality generator the image argument it was
given; none means the generator was never invoked. -/
structure RepairCalls : Type where
  segment_called : Bool
  variations_called : Bool
  expressions_called : Bool
  personality_arg : Option String
deriving DecidableEq, Repr

/-- personalityFromResult embeds the shared result handling of a
chat_service.generate_personality call (src/app.py lines 205-237 and
634-664): an exception (none) yields the default personality, a dict with
an error key yields the default, a dict with a personality_data key yields
that value, anything else yields the default. -/
def personalityFromResult : Option PyVal → PyVal
  | Option.none => defaultPersonality
  | some r =>
    match r with
    | .dict es =>
      if (pyLookup es "error").isSome then defaultPersonality
      else
        match pyLookup es "personality_data" with
        | some p => p
        | Option.none => defaultPersonality
    | _ => defaultPersonality

/-- complete_missing_preparation embeds src/app.py lines 162-243.  Each
stage is attempted only if its key is in the missing set; a failed
generator call is replaced by the stage fallback (original image, empty
list, empty dict, default personality).  The expressions stage is guarded
by the truthiness of completed_files.get("variations"), so it is skipped
entirely (no dict entry) when the dict has no variations key or holds an
empty list.  In the personality stage the source evaluates
completed_files.get("variations", [None])[0]: when the variations key
holds an empty list this indexing raises IndexError inside the stage try
block, so the default personality is substituted without invoking the
generator. -/
def complete_missing_preparation (o : RepairOracle) (image_uuid : String)
    (original_image_path : String) (missing : MissingSet) :
    RepairResult × RepairCalls :=
  let seg : Option String :=
    if missing.segmented_image then
      match o.segment_image with
      | some p => some p
      | Option.none => some original_image_path
    else Option.none
  let segmented_or_orig := seg.getD original_image_path
  let vars : Option (List String) :=
    if missing.variations then
      match o.cartoon_variations with
      | some vs => some vs
      | Option.none => some []
    else Option.none
  let exprs : Option (List (String × String)) :=
    if missing.expressions then
      match vars with
      | some (_ :: _) =>
        match o.expressions_gen with
        | some m => some m
        | Option.none => some []
      | _ => Option.none
    else Option.none
  let exprsCalled := missing.expressions && (match vars with
    | some (_ :: _) => true
    | _ => false)
  let persPair : Option PyVal × Option String :=
    if missing.personality then
      match vars with
      | some [] => (some defaultPersonality, Option.none)
      | some (v :: _) =>
        let avatar_image := if v = "" then segmented_or_orig else v
        (some (personalityFromResult o.generate_personality), some avatar_image)
      | Option.none =>
        (some (personalityFromResult o.generate_personality), some segmented_or_orig)
    else (Option.none, Option.none)
  (⟨seg, vars, exprs, persPair.1⟩,
   ⟨missing.segmented_image, missing.variations, exprsCalled, persPair.2⟩)

/-- _create_placeholder_image embeds src/services/image_service.py lines
425-450: the placeholder file written for a failed variation, at the
deterministic path avatars_dir/image_uuid_name.png.  The PIL drawing and
disk write are environment effects outside the model. -/
def _create_placeholder_image (image_uuid : String) (name : String) : String :=
  s!"generated/avatars/{image_uuid}_{name}.png"

/-- cartoonLoop embeds the for loop of generate_cartoon_variations
(src/services/image_service.py lines 178-198): the i-th prompt leads to one
asynchronous edit call whose outcome is oCall i prompt; a raised call
(none) is replaced by the placeholder image for that single variation. -/
def cartoonLoop (oCall : Nat → String → Option String) (image_uuid : String) :
    Nat → List String → List String
  | _, [] => []
  | i, prompt :: rest =>
    (match oCall i prompt with
     | some p => p
     | Option.none => _create_placeholder_image image_uuid s!"variation_{i + 1}_placeholder") ::
    cartoonLoop oCall image_uuid (i + 1) rest

/-- generate_cartoon_variations embeds src/services/image_service.py lines
158-205: with fewer than 4 configured cartoon prompts the function raises
(none); otherwise it processes exactly the first 4 prompts and returns the
4 collected paths. -/
def generate_cartoon_variations (cartoon_prompts : List String)
    (oCall : Nat → String → Option String) (image_uuid : String) :
    Option (List String) :=
  if cartoon_prompts.length < 4 then Option.none
  else some (cartoonLoop oCall image_uuid 0 (cartoon_prompts.take 4))

/-- Status enumerates the values the source assigns to the status field of
a session record (src/app.py lines 361, 400, 447, 505, 525, 609, 673). -/
inductive Status : Type where
  | uploaded
  | generating_variations
  | variations_ready
  | processing_selection
  | ready
  | ready_for_chat
  | preparation_completed
deriving DecidableEq, Repr

/-- statusRank orders the five statuses of the main pipeline chain
uploaded, generating_variations, variations_ready, processing_selection,
ready; the two dedup entry statuses are terminal chat-eligible states and
rank with ready. -/
def statusRank : Status → Nat
  | .uploaded => 0
  | .generating_variations => 1
  | .variations_ready => 2
  | .processing_selection => 3
  | .ready => 4
  | .ready_for_chat => 4
  | .preparation_completed => 4

/-- Session models one record of the user_sessions store.  Keys the source
leaves absent on some paths are Option fields (none means absent) except
variations and expressions, which every reader accesses through
session.get with [] or the empty dict as default, so the absent key and
the empty value are observationally identical. -/
structure Session : Type where
  session_id : String
  image_uuid : String
  original_image_path : String
  segmented_image : String
  variations : List String
  expressions : List (String × String)
  personality : Option PyVal
  personality_file : Option String
  status : Status
  step : String
  created_at : Nat
  completed_at : Option Nat
  selected_avatar : Option String
  selected_index : Option Int
  variations_count : Option Nat
  md5 : Option String
  auto_completed : Bool

/-- GenOutcome is the observable result of the avatar-variations handler
once a session has been found: a success response or the 500
GENERATION_ERROR response. -/
inductive GenOutcome : Type where
  | success (count : Nat)
  | generationError
deriving DecidableEq, Repr

/-- generate_avatar_variations embeds the per-session body of the handler
at src/app.py lines 473-557 (after request and session-id validation).
The status is set to generating_variations before the generator call
(lines 505-506); on a raised call the handler returns the error response
with the session left in that state; on success the session moves to
variations_ready with the returned list (lines 523-528).  The oGen oracle
is the outcome of the image_service.generate_cartoon_variations call. -/
def generate_avatar_variations (oGen : Option (List String)) (s : Session) :
    GenOutcome × Session :=
  let s1 := { s with status := Status.generating_variations,
                     step := "generating_variations" }
  match oGen with
  | Option.none => (GenOutcome.generationError, s1)
  | some vs =>
    (GenOutcome.success vs.length,
     { s1 with variations := vs,
               status := Status.variations_ready,
               step := "variations_generated",
               variations_count := some vs.length })

/-- SelectOutcome is the observable result of the select-avatar handler
once a session has been found: a success response or the 400
INVALID_INDEX response. -/
inductive SelectOutcome : Type where
  | ok
  | invalidIndex
deriving DecidableEq, Repr

/-- SelectOracle carries the outcomes of the two generator calls made by
the select-avatar handler: the expressions synthesis and the personality
generation (none models a raised call). -/
structure SelectOracle : Type where
  expressions_gen : Option (List (String × String))
  generate_personality : Option PyVal

/-- select_avatar embeds the per-session body of the handler at src/app.py
lines 559-711 (after request and session-id validation).  The bounds test
at line 599 rejects any index outside [0, len(variations)) before any
session field is written; on a valid index the session passes through
processing_selection and ends ready, with expression placeholders from
the configured emotion keys on a raised expressions call and the shared
personality result handling on the personality call.  The parameter
expressions_config is the key list of config prompts expressions; now is
the clock value used for completed_at. -/
def select_avatar (o : SelectOracle) (expressions_config : List String)
    (now : Nat) (s : Session) (selected_index : Int) :
    SelectOutcome × Session :=
  let variations := s.variations
  if selected_index ≥ (variations.length : Int) ∨ selected_index < 0 then
    (SelectOutcome.invalidIndex, s)
  else
    let selected_avatar := variations.getD selected_index.toNat ""
    let image_uuid := s.image_uuid
    let s1 := { s with status := Status.processing_selection,
                       step := "generating_expressions",
                       selected_avatar := some selected_avatar,
                       selected_index := some selected_index }
    let exprs : List (String × String) :=
      match o.expressions_gen with
      | some m => m
      | Option.none =>
        expressions_config.map (fun emotion => (emotion, s!"{image_uuid}_{emotion}_placeholder.mp4"))
    let personality := personalityFromResult o.generate_personality
    (SelectOutcome.ok,
     { s1 with expressions := exprs,
               personality := some personality,
               status := Status.ready,
               step := "preparation_complete",
               completed_at := some now })

/-- UFile models one file of the uploads directory as a structured path
(stem and extension, with pathOf rendering the Python Path string) plus
its byte contents.  Stems are dot-free and extensions are single-dot
suffixes such as ".jpg", matching every name the source writes into the
directory, so Path(p).stem is modelled by the stem field. -/
structure UFile : Type where
  stem : String
  ext : String
  content : String
deriving DecidableEq, Repr

/-- pathOf renders the Python path string of an uploads-directory file. -/
def pathOf (f : UFile) : String :=
  "uploads/" ++ f.stem ++ f.ext

/-- calculate_file_md5 embeds src/app.py lines 89-99.  Per the modelling
conventions the MD5 digest is an injective fingerprint of the contents
(the contents themselves); in the model file reads always succeed, so the
None branch of the source (unreadable file) is unreachable. -/
def calculate_file_md5 (content : String) : String :=
  content

/-- find_existing_image_by_md5 embeds src/app.py lines 101-112: scan the
uploads directory in enumeration order and return the first file whose
fingerprint equals md5_hash and whose path differs from original_filename
(the staged temp file).  The source returns str(file_path); the model
returns the file itself, whose pathOf is that string. -/
def find_existing_image_by_md5 (uploads_dir : List UFile) (md5_hash : String)
    (original_filename : String) : Option UFile :=
  uploads_dir.find? (fun f =>
    calculate_file_md5 f.content == md5_hash && pathOf f != original_filename)

/-- dictSet models Python dict assignment d[k] = v over an association
list: overwrite the binding if the key exists, append otherwise. -/
def dictSet (d : List (String × Session)) (k : String) (v : Session) :
    List (String × Session) :=
  if d.any (fun kv => kv.1 == k) then
    d.map (fun kv => if kv.1 == k then (k, v) else kv)
  else d ++ [(k, v)]

/-- AppState is the mutable state touched by the upload handler: the
uploads directory, the set of existing generated artifact paths, and the
user_sessions store. -/
structure AppState : Type where
  uploads : List UFile
  gen : List String
  sessions : List (String × Session)

/-- UploadReq is the validated surface of the incoming multipart request:
whether the request carries an image file part, the client filename, and
the file bytes. -/
structure UploadReq : Type where
  hasFile : Bool
  filename : String
  content : String
deriving DecidableEq, Repr

/-- allowed_extensions is the extension whitelist of src/app.py line 268. -/
def allowed_extensions : List String :=
  [".jpg", ".jpeg", ".png", ".webp"]

/-- pathSuffix models pathlib suffix extraction Path(name).suffix: the
substring from the last dot, provided that dot is neither the first nor
the last character; otherwise the empty string.  The model treats the
whole filename as the final path component. -/
def pathSuffix (name : String) : String :=
  let cs := name.toList
  match ((List.range cs.length).filter (fun i => cs.getD i ' ' = '.')).getLast? with
  | some i => if 0 < i ∧ i < cs.length - 1 then String.mk (cs.drop i) else ""
  | Option.none => ""

/-- lowerStr models the Python str.lower() call on an extension, applied
characterwise. -/
def lowerStr (s : String) : String :=
  String.mk (s.toList.map Char.toLower)

/-- UploadOutcome is the observable classification of an upload response:
one of the three 400 validation rejections, the two dedup outcomes
(ready_for_chat with its reported completion percentage, or
preparation_completed after auto repair), or the new-image outcome. -/
inductive UploadOutcome : Type where
  | noFile
  | noFilename
  | invalidFormat
  | readyForChat (completion_percentage : Nat)
  | preparationCompleted
  | newImage
deriving DecidableEq, Repr

/-- UploadResult packages the upload handler effects: the response
classification, the state after the call, the session record created (none
on validation failure), and how many stage-1 segmentation calls the
request dispatched. -/
structure UploadResult : Type where
  outcome : UploadOutcome
  state : AppState
  session : Option Session
  segment_calls : Nat

/-- upload_dedup_branch embeds the dedup-hit path of the upload handler
(src/app.py lines 306-422): reuse the avatar identity extracted as the
stem of the found file; when the preparation is complete, build a
ready_for_chat session loading the stored personality (oLoad is the
json.load outcome, none modelling an unreadable file); otherwise run
complete_missing_preparation on the missing keys and build a
preparation_completed session. -/
def upload_dedup_branch (oRepair : RepairOracle) (oLoad : Option PyVal)
    (session_id : String) (now : Nat) (st : AppState)
    (uploadsAfter : List UFile) (file_md5 : String) (existing : UFile) :
    UploadResult :=
  let existing_image_uuid := existing.stem
  let checked := check_preparation_completeness existing_image_uuid st.gen
  if checked.1.length = 0 then
    let personality_file_path := personalityPath existing_image_uuid
    let personality_data : PyVal :=
      if st.gen.contains personality_file_path then
        match oLoad with
        | some v => v
        | Option.none => defaultPersonality
      else defaultPersonality
    let session : Session :=
      { session_id := session_id
        image_uuid := existing_image_uuid
        original_image_path := pathOf existing
        segmented_image := "temp/segmented_" ++ existing_image_uuid ++ ".jpg"
        variations := requiredVariationPaths existing_image_uuid
        expressions :=
          [("happy", "generated/expressions/" ++ existing_image_uuid ++ "_happy.mp4"),
           ("sad", "generated/expressions/" ++ existing_image_uuid ++ "_sad.mp4"),
           ("surprised", "generated/expressions/" ++ existing_image_uuid ++ "_surprised.mp4")]
        personality := some personality_data
        personality_file := some personality_file_path
        status := Status.ready_for_chat
        step := "preparation_complete"
        created_at := now
        completed_at := Option.none
        selected_avatar := Option.none
        selected_index := Option.none
        variations_count := Option.none
        md5 := some file_md5
        auto_completed := false }
    ⟨UploadOutcome.readyForChat checked.2,
     ⟨uploadsAfter, st.gen, dictSet st.sessions session_id session⟩,
     some session, 0⟩
  else
    let missing : MissingSet :=
      { segmented_image := checked.1.any (fun kv => kv.1 == "segmented_image")
        variations := checked.1.any (fun kv => kv.1 == "variations")
        expressions := checked.1.any (fun kv => kv.1 == "expressions")
        personality := checked.1.any (fun kv => kv.1 == "personality") }
    let repaired := complete_missing_preparation oRepair existing_image_uuid
      (pathOf existing) missing
    let session : Session :=
      { session_id := session_id
        image_uuid := existing_image_uuid
        original_image_path := pathOf existing
        segmented_image := (repaired.1.segmented_image).getD (pathOf existing)
        variations := (repaired.1.variations).getD []
        expressions := (repaired.1.expressions).getD []
        personality := repaired.1.personality
        personality_file := Option.none
        status := Status.preparation_completed
        step := "preparation_complete"
        created_at := now
        completed_at := Option.none
        selected_avatar := Option.none
        selected_index := Option.none
        variations_count := Option.none
        md5 := some file_md5
        auto_completed := true }
    ⟨UploadOutcome.preparationCompleted,
     ⟨uploadsAfter, st.gen, dictSet st.sessions session_id session⟩,
     some session,
     if repaired.2.segment_called then 1 else 0⟩

/-- upload_new_branch embeds the new-image path of the upload handler
(src/app.py lines 424-463): rename the temp file to the canonical original
path, run the segmentation stage once falling back to the original on a
raised call, and store an uploaded session. -/
def upload_new_branch (oSeg : Option String) (session_id image_uuid : String)
    (now : Nat) (st : AppState) (uploads_unlinked : List UFile)
    (file_md5 : String) (file_ext : String) (content : String) :
    UploadResult :=
  let final_file : UFile := ⟨image_uuid, file_ext, content⟩
  let uploadsAfter := uploads_unlinked ++ [final_file]
  let segmented_path :=
    match oSeg with
    | some p => p
    | Option.none => pathOf final_file
  let session : Session :=
    { session_id := session_id
      image_uuid := image_uuid
      original_image_path := pathOf final_file
      segmented_image := segmented_path
      variations := []
      expressions := []
      personality := Option.none
      personality_file := Option.none
      status := Status.uploaded
      step := "image_uploaded"
      created_at := now
      completed_at := Option.none
      selected_avatar := Option.none
      selected_index := Option.none
      variations_count := Option.none
      md5 := some file_md5
      auto_completed := false }
  ⟨UploadOutcome.newImage,
   ⟨uploadsAfter, st.gen, dictSet st.sessions session_id session⟩,
   some session, 1⟩

/-- upload_image_staged stages the temp file, fingerprints it, runs the
dedup scan with the staged path excluded, and dispatches to the dedup
branch (unlinking the temp file) or the new-image branch. -/
def upload_image_staged (oSeg : Option String) (oRepair : RepairOracle)
    (oLoad : Option PyVal) (session_id : String) (image_uuid : String)
    (now : Nat) (st : AppState) (req : UploadReq) (file_ext : String) :
    UploadResult :=
  let temp_file : UFile := ⟨"temp_" ++ image_uuid, file_ext, req.content⟩
  let uploadsWithTemp := st.uploads ++ [temp_file]
  let file_md5 := calculate_file_md5 req.content
  let uploads_unlinked :=
    uploadsWithTemp.filter (fun g => !(pathOf g == pathOf temp_file))
  match find_existing_image_by_md5 uploadsWithTemp file_md5 (pathOf temp_file) with
  | some existing =>
    upload_dedup_branch oRepair oLoad session_id now st uploads_unlinked
      file_md5 existing
  | Option.none =>
    upload_new_branch oSeg session_id image_uuid now st uploads_unlinked
      file_md5 file_ext req.content

/-- upload_image embeds src/app.py lines 247-471: request validation (file
part present, nonempty filename, extension whitelist) happens before the
temp file is staged and before any session-store write; a request passing
validation is handed to upload_image_staged with its lowercased
extension. -/
def upload_image (oSeg : Option String) (oRepair : RepairOracle)
    (oLoad : Option PyVal) (session_id : String) (image_uuid : String)
    (now : Nat) (st : AppState) (req : UploadReq) : UploadResult :=
  if !req.hasFile then
    ⟨UploadOutcome.noFile, st, Option.none, 0⟩
  else if req.filename = "" then
    ⟨UploadOutcome.noFilename, st, Option.none, 0⟩
  else
    let file_ext := lowerStr (pathSuffix req.filename)
    if !(allowed_extensions.contains file_ext) then
      ⟨UploadOutcome.invalidFormat, st, Option.none, 0⟩
    else
      upload_image_staged oSeg oRepair oLoad session_id image_uuid now st req file_ext

/-- sampleReadySession is a concrete session record that has reached the
terminal ready state of the main pipeline chain, used to evaluate the
handlers at explicit inputs. -/
def sampleReadySession : Session :=
  { session_id := "sid-1"
    image_uuid := "img-1"
    original_image_path := "uploads/img-1.jpg"
    segmented_image := "temp/segmented_img-1.jpg"
    variations := ["generated/avatars/img-1_variation_1.png",
                   "generated/avatars/img-1_variation_2.png",
                   "generated/avatars/img-1_variation_3.png",
                   "generated/avatars/img-1_variation_4.png"]
    expressions := [("happy", "generated/expressions/img-1_happy.mp4")]
    personality := some defaultPersonality
    personality_file := Option.none
    status := Status.ready
    step := "preparation_complete"
    created_at := 100
    completed_at := some 200
    selected_avatar := some "generated/avatars/img-1_variation_1.png"
    selected_index := some 0
    variations_count := some 4
    md5 := some "BYTES-1"
    auto_completed := false }

/-- sampleUploadedSession is a concrete session record as created by the
new-image branch of the upload handler, used to evaluate the handlers at
explicit inputs. -/
def sampleUploadedSession : Session :=
  { session_id := "sid-2"
    image_uuid := "img-2"
    original_image_path := "uploads/img-2.jpg"
    segmented_image := "temp/segmented_abc_img-2.jpg"
    variations := []
    expressions := []
    personality := Option.none
    personality_file := Option.none
    status := Status.uploaded
    step := "image_uploaded"
    created_at := 50
    completed_at := Option.none
    selected_avatar := Option.none
    selected_index := Option.none
    variations_count := Option.none
    md5 := some "BYTES-2"
    auto_completed := false }

/-! Helper lemmas shared by several claim theorems. -/

/-- Every key of the missing_files dict is one of the three tracked
category groups. -/
theorem check_keys_tracked (image_uuid : String) (gen : List String) :
    ∀ kv ∈ (check_preparation_completeness image_uuid gen).1,
      kv.1 = "variations" ∨ kv.1 = "expressions" ∨ kv.1 = "personality" := by
  intro kv hkv
  simp only [check_preparation_completeness, List.mem_append] at hkv
  rcases hkv with (h | h) | h <;> split at h <;> simp_all

/-- The missing_files dict has at most three entries. -/
theorem check_length_le (image_uuid : String) (gen : List String) :
    (check_preparation_completeness image_uuid gen).1.length ≤ 3 := by
  simp only [check_preparation_completeness, List.length_append]
  split <;> split <;> split <;> simp

/-- C1, corrected part.  The claim asserts the completion percentage is
exactly 100, 67, 33 or 0 for 0, 1, 2, 3 missing category groups; the code
truncates int((completed/3)*100), which yields 66, not 67, for one missing
group.  With all variation and expression files present and the
personality file absent the report has exactly one missing group and the
percentage is 66. -/
theorem completion_percentage_one_missing_is_66 :
    (check_preparation_completeness "u"
        (requiredVariationPaths "u" ++ requiredExpressionPaths "u")).1.length = 1 ∧
    (check_preparation_completeness "u"
        (requiredVariationPaths "u" ++ requiredExpressionPaths "u")).2 = 66 ∧
    (check_preparation_completeness "u"
        (requiredVariationPaths "u" ++ requiredExpressionPaths "u")).2 ≠ 67 := by
  refine ⟨rfl, rfl, ?_⟩
  decide

/-- C1 (amended): for every avatar identity and filesystem snapshot the
completion percentage equals the integer truncation of
100*(3 - n)/3 where n is the number of missing category groups, i.e. it is
exactly 100, 66, 33 or 0 for n = 0, 1, 2, 3. -/
theorem completion_percentage_formula (image_uuid : String) (gen : List String) :
    (check_preparation_completeness image_uuid gen).2 =
      100 * (3 - (check_preparation_completeness image_uuid gen).1.length) / 3 ∧
    ((check_preparation_completeness image_uuid gen).2 = 100 ∨
     (check_preparation_completeness image_uuid gen).2 = 66 ∨
     (check_preparation_completeness image_uuid gen).2 = 33 ∨
     (check_preparation_completeness image_uuid gen).2 = 0) := by
  have h := check_length_le image_uuid gen
  have e : (check_preparation_completeness image_uuid gen).2 =
      (3 - (check_preparation_completeness image_uuid gen).1.length) * 100 / 3 := rfl
  constructor
  · rw [e, Nat.mul_comm]
  · rw [e]
    set n := (check_preparation_completeness image_uuid gen).1.length with hn
    interval_cases n <;> decide

/-- Emptiness of the missing-path filter over a category is equivalent to
every required path of that category existing. -/
theorem filter_missing_isEmpty_iff (req gen : List String) :
    ((req.filter (fun p => !(gen.contains p))).isEmpty = true) ↔
      ∀ p ∈ req, p ∈ gen := by
  rw [List.isEmpty_iff, List.filter_eq_nil_iff]
  simp [List.elem_iff]

/-- C6, corrected part.  The claim asserts every reported missing group
maps to the list of its missing paths; on an empty filesystem snapshot the
personality group is reported, but its entry is the bare path string
(MissingEntry.singlePath), not a list of paths. -/
theorem personality_entry_not_a_list :
    ((check_preparation_completeness "u" []).1.lookup "personality" =
      some (MissingEntry.singlePath (personalityPath "u"))) ∧
    ¬ ∃ ps, (check_preparation_completeness "u" []).1.lookup "personality" =
      some (MissingEntry.pathList ps) := by
  refine ⟨rfl, ?_⟩
  rintro ⟨ps, h⟩
  rw [show (check_preparation_completeness "u" []).1.lookup "personality" =
      some (MissingEntry.singlePath (personalityPath "u")) from rfl] at h
  simp at h

/-- C6 (amended): a category group is reported missing if and only if at
least one of its required paths is absent; only the three groups
variations, expressions, personality are ever reported (the segmented
image never is); the variations and expressions entries are the lists of
their missing paths, while the personality entry is the single missing
path itself (a bare string, not a list). -/
theorem check_report_shape (image_uuid : String) (gen : List String) :
    (∀ kv ∈ (check_preparation_completeness image_uuid gen).1,
        kv.1 = "variations" ∨ kv.1 = "expressions" ∨ kv.1 = "personality") ∧
    ((check_preparation_completeness image_uuid gen).1.lookup "variations" =
      if ∀ p ∈ requiredVariationPaths image_uuid, p ∈ gen then Option.none
      else some (MissingEntry.pathList
        ((requiredVariationPaths image_uuid).filter (fun p => !(gen.contains p))))) ∧
    ((check_preparation_completeness image_uuid gen).1.lookup "expressions" =
      if ∀ p ∈ requiredExpressionPaths image_uuid, p ∈ gen then Option.none
      else some (MissingEntry.pathList
        ((requiredExpressionPaths image_uuid).filter (fun p => !(gen.contains p))))) ∧
    ((check_preparation_completeness image_uuid gen).1.lookup "personality" =
      if personalityPath image_uuid ∈ gen then Option.none
      else some (MissingEntry.singlePath (personalityPath image_uuid))) := by
  refine ⟨check_keys_tracked image_uuid gen, ?_, ?_, ?_⟩ <;>
    simp only [check_preparation_completeness] <;>
    split_ifs <;>
    simp_all [List.lookup, filter_missing_isEmpty_iff, List.elem_iff]

/-- The validated traits value is always a list of at most 5 strings. -/
theorem validatedTraits_shape (data : PyVal) :
    ∃ ps, validatedTraits data = PyVal.list ps ∧ ps.length ≤ 5 ∧
      ∀ x ∈ ps, ∃ s, x = PyVal.str s := by
  unfold validatedTraits
  split
  · split
    · refine ⟨_, rfl, ?_, ?_⟩
      · simp [List.length_take]
      · intro x hx
        simp only [List.mem_map] at hx
        obtain ⟨t, ht, rfl⟩ := hx
        exact ⟨pyStr t, rfl⟩
    · exact ⟨[], rfl, by simp, by simp⟩
  · exact ⟨[], rfl, by simp, by simp⟩

/-- The validated habits value is always a list of at most 3 strings. -/
theorem validatedHabits_shape (data : PyVal) :
    ∃ hs, validatedHabits data = PyVal.list hs ∧ hs.length ≤ 3 ∧
      ∀ x ∈ hs, ∃ s, x = PyVal.str s := by
  unfold validatedHabits
  split
  · split
    · refine ⟨_, rfl, ?_, ?_⟩
      · simp [List.length_take]
      · intro x hx
        simp only [List.mem_map] at hx
        obtain ⟨t, ht, rfl⟩ := hx
        exact ⟨pyStr t, rfl⟩
    · exact ⟨[], rfl, by simp, by simp⟩
  · exact ⟨[], rfl, by simp, by simp⟩

/-- The validated voice tone value is always a string. -/
theorem validatedVoiceTone_shape (data : PyVal) :
    ∃ s, validatedVoiceTone data = PyVal.str s := by
  unfold validatedVoiceTone
  split
  · split
    · exact ⟨_, rfl⟩
    · exact ⟨"friendly", rfl⟩
  · exact ⟨"friendly", rfl⟩

/-- C8: for every input value, including malformed and empty ones,
personality validation returns a dict with exactly the keys personality (a
list of at most 5 strings), habits (a list of at most 3 strings) and
voice_tone (a string); no partial population is possible. -/
theorem _validate_personality_data_shape (data : PyVal) :
    ∃ ps hs v,
      _validate_personality_data data =
        [("personality", PyVal.list ps), ("habits", PyVal.list hs),
         ("voice_tone", PyVal.str v)] ∧
      ps.length ≤ 5 ∧ hs.length ≤ 3 ∧
      (∀ x ∈ ps, ∃ s, x = PyVal.str s) ∧ (∀ x ∈ hs, ∃ s, x = PyVal.str s) := by
  obtain ⟨ps, hps, hps5, hpss⟩ := validatedTraits_shape data
  obtain ⟨hs, hhs, hhs3, hhss⟩ := validatedHabits_shape data
  obtain ⟨v, hv⟩ := validatedVoiceTone_shape data
  exact ⟨ps, hs, v, by simp [_validate_personality_data, hps, hhs, hv],
         hps5, hhs3, hpss, hhss⟩

/-- Witness for C8 at a malformed concrete input (personality key holds a
list of non-strings, habits key missing, voice_tone key holds a number). -/
theorem _validate_personality_data_shape_witness :
    ∃ ps hs v,
      _validate_personality_data
          (PyVal.dict [("personality", PyVal.list [PyVal.int 1, PyVal.none]),
                       ("voice_tone", PyVal.int 7)]) =
        [("personality", PyVal.list ps), ("habits", PyVal.list hs),
         ("voice_tone", PyVal.str v)] ∧
      ps.length ≤ 5 ∧ hs.length ≤ 3 ∧
      (∀ x ∈ ps, ∃ s, x = PyVal.str s) ∧ (∀ x ∈ hs, ∃ s, x = PyVal.str s) :=
  _validate_personality_data_shape
    (PyVal.dict [("personality", PyVal.list [PyVal.int 1, PyVal.none]),
                 ("voice_tone", PyVal.int 7)])

/-- C9: the repair run with missing set containing variations and
personality, whose variations generator raises (so the variations entry
falls back to the empty list), never invokes the personality generator
(the IndexError from indexing the empty list is swallowed by the stage try
block) and substitutes the default personality, although the generator
oracle would have produced a profile. -/
theorem personality_generator_skipped_on_empty_variations :
    (complete_missing_preparation
        ⟨Option.none, Option.none, Option.none,
         some (PyVal.dict [("personality_data", PyVal.str "generated-profile")])⟩
        "u" "uploads/u.jpg" ⟨false, true, false, true⟩).2.personality_arg = Option.none ∧
    (complete_missing_preparation
        ⟨Option.none, Option.none, Option.none,
         some (PyVal.dict [("personality_data", PyVal.str "generated-profile")])⟩
        "u" "uploads/u.jpg" ⟨false, true, false, true⟩).1.personality =
      some defaultPersonality ∧
    MissingSet.personality ⟨false, true, false, true⟩ = true :=
  ⟨rfl, rfl, rfl⟩

/-- C2, corrected part.  The claim asserts the repair result contains an
entry (artifact or fallback) for every category of the missing set; with
missing set containing only expressions and no variation artifact
available, the returned dict has no expressions entry at all. -/
theorem repair_omits_expressions_entry :
    (complete_missing_preparation ⟨Option.none, Option.none, Option.none, Option.none⟩
        "u" "uploads/u.jpg" ⟨false, false, true, false⟩).1.expressions = Option.none ∧
    MissingSet.expressions ⟨false, false, true, false⟩ = true :=
  ⟨rfl, rfl⟩

/-- C2 (amended): for every missing set and every pattern of generator
outcomes, the repair result contains, for each category in the missing
set, either the generated artifact or that category fallback (original
image for segmented, empty list for variations, empty mapping for
expressions, extracted or default profile for personality) — except the
expressions category, whose entry is present exactly when the repair run
itself produced a nonempty variations artifact and is omitted from the
result otherwise.  The repair operation is a total function: every
generator exception is absorbed inside its stage (the totality of
complete_missing_preparation is the never-raises part of the claim). -/
theorem repair_best_effort (o : RepairOracle) (image_uuid : String)
    (original_image_path : String) (missing : MissingSet) :
    (missing.segmented_image = true →
      (complete_missing_preparation o image_uuid original_image_path missing).1.segmented_image =
        some (o.segment_image.getD original_image_path)) ∧
    (missing.variations = true →
      (complete_missing_preparation o image_uuid original_image_path missing).1.variations =
        some (o.cartoon_variations.getD [])) ∧
    (missing.expressions = true →
      ∀ v vs, (complete_missing_preparation o image_uuid original_image_path missing).1.variations =
          some (v :: vs) →
        (complete_missing_preparation o image_uuid original_image_path missing).1.expressions =
          some (o.expressions_gen.getD [])) ∧
    (missing.expressions = true →
      (∀ v vs, (complete_missing_preparation o image_uuid original_image_path missing).1.variations ≠
          some (v :: vs)) →
        (complete_missing_preparation o image_uuid original_image_path missing).1.expressions =
          Option.none) ∧
    (missing.personality = true →
      (complete_missing_preparation o image_uuid original_image_path missing).1.personality =
        some defaultPersonality ∨
      (complete_missing_preparation o image_uuid original_image_path missing).1.personality =
        some (personalityFromResult o.generate_personality)) := by
  refine ⟨?_, ?_, ?_, ?_, ?_⟩
  · intro h
    cases hseg : o.segment_image <;>
      simp [complete_missing_preparation, h, hseg]
  · intro h
    cases hvar : o.cartoon_variations <;>
      simp [complete_missing_preparation, h, hvar]
  · intro h v vs hvv
    cases hmv : missing.variations <;>
      rcases hvar : o.cartoon_variations with _ | vs2 <;>
      simp [complete_missing_preparation, h, hmv, hvar] at hvv ⊢ <;>
      subst hvv <;>
      cases hexp : o.expressions_gen <;> simp [hexp]
  · intro h hne
    cases hmv : missing.variations <;>
      rcases hvar : o.cartoon_variations with _ | (_ | ⟨v2, vs2⟩) <;>
      simp [complete_missing_preparation, h, hmv, hvar] <;>
      exact absurd (by simp [complete_missing_preparation, h, hmv, hvar]) (hne v2 vs2)
  · intro h
    cases hmv : missing.variations <;>
      rcases hvar : o.cartoon_variations with _ | (_ | ⟨v2, vs2⟩) <;>
      simp [complete_missing_preparation, h, hmv, hvar]

/-- Witness for C2 (amended) at a concrete oracle and full missing set:
the segmented stage entry is the generated artifact. -/
theorem repair_best_effort_witness :
    MissingSet.segmented_image ⟨true, true, true, true⟩ = true ∧
    (complete_missing_preparation
        ⟨some "temp/seg.png", some ["generated/avatars/u_variation_1.png"],
         some [("happy", "generated/expressions/u_happy.mp4")], Option.none⟩
        "u" "uploads/u.jpg" ⟨true, true, true, true⟩).1.segmented_image =
      some "temp/seg.png" :=
  ⟨rfl,
   (repair_best_effort
      ⟨some "temp/seg.png", some ["generated/avatars/u_variation_1.png"],
       some [("happy", "generated/expressions/u_happy.mp4")], Option.none⟩
      "u" "uploads/u.jpg" ⟨true, true, true, true⟩).1 rfl⟩

/-- C3: for every session and every selection index outside
[0, len(variations)), select_avatar answers the INVALID_INDEX validation
error and returns the session record entirely unchanged (the bounds test
precedes every field write). -/
theorem select_avatar_out_of_range (o : SelectOracle)
    (expressions_config : List String) (now : Nat) (s : Session)
    (selected_index : Int)
    (h : selected_index < 0 ∨ (s.variations.length : Int) ≤ selected_index) :
    select_avatar o expressions_config now s selected_index =
      (SelectOutcome.invalidIndex, s) := by
  simp only [select_avatar]
  split_ifs with hc
  · rfl
  · exfalso
    omega

/-- Witness for C3: index 5 on a session with 4 variations is rejected and
the session is untouched. -/
theorem select_avatar_out_of_range_witness :
    ((5 : Int) < 0 ∨ ((sampleReadySession.variations.length : Int) ≤ 5)) ∧
    select_avatar ⟨Option.none, Option.none⟩ ["happy", "sad", "surprised"] 300
        sampleReadySession 5 =
      (SelectOutcome.invalidIndex, sampleReadySession) :=
  ⟨by decide,
   select_avatar_out_of_range ⟨Option.none, Option.none⟩
     ["happy", "sad", "surprised"] 300 sampleReadySession 5 (by decide)⟩

/-- C4, corrected part.  The claim asserts no sequence of operations ever
regresses a session status; re-invoking generate_avatar_variations on a
session that has already reached ready sets its status back to
variations_ready (and to generating_variations when the generator call
raises), an earlier state than ready. -/
theorem generate_variations_regresses_ready_session :
    sampleReadySession.status = Status.ready ∧
    (generate_avatar_variations
        (some ["generated/avatars/img-1_variation_1.png"]) sampleReadySession).2.status =
      Status.variations_ready ∧
    statusRank
        (generate_avatar_variations
          (some ["generated/avatars/img-1_variation_1.png"]) sampleReadySession).2.status <
      statusRank sampleReadySession.status ∧
    (generate_avatar_variations Option.none sampleReadySession).2.status =
      Status.generating_variations := by
  refine ⟨rfl, rfl, ?_, rfl⟩
  decide

/-- C4 (amended): along the intended pipeline sequence — a session in the
uploaded state, then generate_avatar_variations, then select_avatar — the
status rank never decreases, whatever the generator outcomes and the
selection index; but re-invoking generate_avatar_variations on a session
already in a later state (such as ready) regresses the status to
variations_ready on success and generating_variations on failure. -/
theorem pipeline_status_monotone (oGen : Option (List String))
    (oSel : SelectOracle) (expressions_config : List String) (now : Nat)
    (s : Session) (selected_index : Int)
    (h : s.status = Status.uploaded) :
    statusRank s.status ≤
      statusRank (generate_avatar_variations oGen s).2.status ∧
    statusRank (generate_avatar_variations oGen s).2.status ≤
      statusRank (select_avatar oSel expressions_config now
          (generate_avatar_variations oGen s).2 selected_index).2.status := by
  constructor
  · cases oGen <;> simp [generate_avatar_variations, h, statusRank]
  · cases oGen <;>
      (simp only [select_avatar, generate_avatar_variations]; split_ifs) <;>
      simp [statusRank]

/-- Witness for C4 (amended) at a concrete uploaded session, successful
generator outcomes and selection index 0. -/
theorem pipeline_status_monotone_witness :
    sampleUploadedSession.status = Status.uploaded ∧
    (statusRank sampleUploadedSession.status ≤
      statusRank (generate_avatar_variations
          (some ["generated/avatars/img-2_variation_1.png"]) sampleUploadedSession).2.status ∧
    statusRank (generate_avatar_variations
        (some ["generated/avatars/img-2_variation_1.png"]) sampleUploadedSession).2.status ≤
      statusRank (select_avatar ⟨Option.none, Option.none⟩ ["happy"] 60
          (generate_avatar_variations
            (some ["generated/avatars/img-2_variation_1.png"]) sampleUploadedSession).2 0).2.status) :=
  ⟨rfl,
   pipeline_status_monotone (some ["generated/avatars/img-2_variation_1.png"])
     ⟨Option.none, Option.none⟩ ["happy"] 60 sampleUploadedSession 0 rfl⟩

/-- The cartoon loop produces one output path per processed prompt. -/
theorem cartoonLoop_length (oCall : Nat → String → Option String)
    (image_uuid : String) :
    ∀ (l : List String) (i : Nat),
      (cartoonLoop oCall image_uuid i l).length = l.length := by
  intro l
  induction l with
  | nil => intro i; rfl
  | cons p rest ih => intro i; simp [cartoonLoop, ih]

/-- The j-th output of the cartoon loop started at index i is the outcome
of the call at index i + j, with the placeholder for that single variation
substituted on a raised call. -/
theorem cartoonLoop_getD (oCall : Nat → String → Option String)
    (image_uuid : String) :
    ∀ (l : List String) (i j : Nat), j < l.length →
      (cartoonLoop oCall image_uuid i l).getD j "" =
        match oCall (i + j) (l.getD j "") with
        | some p => p
        | Option.none =>
          _create_placeholder_image image_uuid s!"variation_{i + j + 1}_placeholder" := by
  intro l
  induction l with
  | nil => intro i j hj; simp at hj
  | cons p rest ih =>
    intro i j hj
    cases j with
    | zero => simp [cartoonLoop]
    | succ j2 =>
      have e : i + 1 + j2 = i + (j2 + 1) := by omega
      have h2 := ih (i + 1) j2 (by simpa using hj)
      rw [e] at h2
      simpa [cartoonLoop, List.getD_cons_succ] using h2

/-- C7: whenever at least 4 cartoon prompts are configured, the variations
generator returns (does not raise) a list of exactly 4 paths, the j-th
being the successfully generated variation for the j-th prompt or the
placeholder image substituted for that single variation on failure. -/
theorem generate_cartoon_variations_four (cartoon_prompts : List String)
    (oCall : Nat → String → Option String) (image_uuid : String)
    (h : 4 ≤ cartoon_prompts.length) :
    ∃ l, generate_cartoon_variations cartoon_prompts oCall image_uuid = some l ∧
      l.length = 4 ∧
      ∀ j, j < 4 →
        l.getD j "" =
          match oCall j ((cartoon_prompts.take 4).getD j "") with
          | some p => p
          | Option.none =>
            _create_placeholder_image image_uuid s!"variation_{j + 1}_placeholder" := by
  refine ⟨cartoonLoop oCall image_uuid 0 (cartoon_prompts.take 4), ?_, ?_, ?_⟩
  · unfold generate_cartoon_variations
    rw [if_neg (by omega)]
  · rw [cartoonLoop_length]
    simp [List.length_take]
    omega
  · intro j hj
    have ht : j < (cartoon_prompts.take 4).length := by
      simp [List.length_take]
      omega
    have h2 := cartoonLoop_getD oCall image_uuid (cartoon_prompts.take 4) 0 j ht
    simpa using h2

/-- Witness for C7 at four concrete prompts with the third call raising:
the result has exactly the claimed shape. -/
theorem generate_cartoon_variations_four_witness :
    4 ≤ (["style-a", "style-b", "style-c", "style-d"] : List String).length ∧
    ∃ l, generate_cartoon_variations ["style-a", "style-b", "style-c", "style-d"]
        (fun i _ => if i = 2 then Option.none else some ("gen" ++ toString i)) "w" =
        some l ∧
      l.length = 4 ∧
      ∀ j, j < 4 →
        l.getD j "" =
          match (fun (i : Nat) (_ : String) =>
              if i = 2 then Option.none else some ("gen" ++ toString i)) j
              ((["style-a", "style-b", "style-c", "style-d"].take 4).getD j "") with
          | some p => p
          | Option.none =>
            _create_placeholder_image "w" s!"variation_{j + 1}_placeholder" :=
  ⟨by decide,
   generate_cartoon_variations_four ["style-a", "style-b", "style-c", "style-d"]
     (fun i _ => if i = 2 then Option.none else some ("gen" ++ toString i)) "w"
     (by decide)⟩

/-- C10: an upload request rejected by input validation (missing file
part, empty filename, or extension outside the whitelist) produces a
validation outcome, leaves the whole application state untouched (no
staged bytes, no generated files, no session record), and dispatches no
segmentation call. -/
theorem upload_validation_rejects_without_side_effects
    (oSeg : Option String) (oRepair : RepairOracle) (oLoad : Option PyVal)
    (session_id image_uuid : String) (now : Nat) (st : AppState)
    (req : UploadReq)
    (h : req.hasFile = false ∨ req.filename = "" ∨
         ¬ allowed_extensions.contains (lowerStr (pathSuffix req.filename)) = true) :
    ((upload_image oSeg oRepair oLoad session_id image_uuid now st req).outcome =
        UploadOutcome.noFile ∨
     (upload_image oSeg oRepair oLoad session_id image_uuid now st req).outcome =
        UploadOutcome.noFilename ∨
     (upload_image oSeg oRepair oLoad session_id image_uuid now st req).outcome =
        UploadOutcome.invalidFormat) ∧
    (upload_image oSeg oRepair oLoad session_id image_uuid now st req).state = st ∧
    (upload_image oSeg oRepair oLoad session_id image_uuid now st req).session =
      Option.none ∧
    (upload_image oSeg oRepair oLoad session_id image_uuid now st req).segment_calls = 0 := by
  unfold upload_image
  rcases h with h | h | h
  · simp [h]
  · by_cases h1 : req.hasFile <;> simp [h, h1]
  · rw [List.elem_iff] at h
    by_cases h1 : req.hasFile <;> by_cases h2 : req.filename = "" <;>
      simp [h, h1, h2]

/-- Witness for C10 at a concrete request with a .gif extension. -/
theorem upload_validation_rejects_witness :
    ((⟨true, "photo.gif", "BYTES"⟩ : UploadReq).hasFile = false ∨
     (⟨true, "photo.gif", "BYTES"⟩ : UploadReq).filename = "" ∨
     ¬ allowed_extensions.contains
        (lowerStr (pathSuffix (⟨true, "photo.gif", "BYTES"⟩ : UploadReq).filename)) = true) ∧
    (((upload_image Option.none ⟨Option.none, Option.none, Option.none, Option.none⟩
          Option.none "sid" "uuid" 7 ⟨[], [], []⟩ ⟨true, "photo.gif", "BYTES"⟩).outcome =
        UploadOutcome.noFile ∨
      (upload_image Option.none ⟨Option.none, Option.none, Option.none, Option.none⟩
          Option.none "sid" "uuid" 7 ⟨[], [], []⟩ ⟨true, "photo.gif", "BYTES"⟩).outcome =
        UploadOutcome.noFilename ∨
      (upload_image Option.none ⟨Option.none, Option.none, Option.none, Option.none⟩
          Option.none "sid" "uuid" 7 ⟨[], [], []⟩ ⟨true, "photo.gif", "BYTES"⟩).outcome =
        UploadOutcome.invalidFormat) ∧
     (upload_image Option.none ⟨Option.none, Option.none, Option.none, Option.none⟩
          Option.none "sid" "uuid" 7 ⟨[], [], []⟩ ⟨true, "photo.gif", "BYTES"⟩).state =
       (⟨[], [], []⟩ : AppState) ∧
     (upload_image Option.none ⟨Option.none, Option.none, Option.none, Option.none⟩
          Option.none "sid" "uuid" 7 ⟨[], [], []⟩ ⟨true, "photo.gif", "BYTES"⟩).session =
       Option.none ∧
     (upload_image Option.none ⟨Option.none, Option.none, Option.none, Option.none⟩
          Option.none "sid" "uuid" 7 ⟨[], [], []⟩ ⟨true, "photo.gif", "BYTES"⟩).segment_calls = 0) :=
  ⟨by decide,
   upload_validation_rejects_without_side_effects Option.none
     ⟨Option.none, Option.none, Option.none, Option.none⟩ Option.none
     "sid" "uuid" 7 ⟨[], [], []⟩ ⟨true, "photo.gif", "BYTES"⟩ (by decide)⟩

/-- Witness for C6 (amended) at a concrete identity and empty filesystem:
the reported personality entry is among the three tracked keys. -/
theorem check_report_shape_witness :
    ("personality", MissingEntry.singlePath (personalityPath "w")) ∈
      (check_preparation_completeness "w" []).1 ∧
    (("personality", MissingEntry.singlePath (personalityPath "w")).1 = "variations" ∨
     ("personality", MissingEntry.singlePath (personalityPath "w")).1 = "expressions" ∨
     ("personality", MissingEntry.singlePath (personalityPath "w")).1 = "personality") :=
  ⟨by decide,
   (check_report_shape "w" []).1
     ("personality", MissingEntry.singlePath (personalityPath "w")) (by decide)⟩

/-- find? is determined by the pointwise behavior of its predicate. -/
theorem find?_congr_pred {α : Type} (p q : α → Bool) :
    ∀ (l : List α), (∀ x ∈ l, p x = q x) → l.find? p = l.find? q := by
  intro l
  induction l with
  | nil => intro h; rfl
  | cons a rest ih =>
    intro h
    simp only [List.find?]
    rw [h a (by simp)]
    cases q a
    · exact ih (fun x hx => h x (by simp [hx]))
    · rfl

/-- The missing_files dict never carries the segmented_image key, so the
missing set handed to auto repair from the upload handler never requests
the segmentation stage. -/
theorem check_no_segmented_key (image_uuid : String) (gen : List String) :
    (check_preparation_completeness image_uuid gen).1.any
      (fun kv => kv.1 == "segmented_image") = false := by
  rw [List.any_eq_false]
  intro kv hkv
  rcases check_keys_tracked image_uuid gen kv hkv with h | h | h <;> simp [h]

/-- The repair call log dispatches the segmentation stage exactly when the
missing set contains the segmented_image key. -/
theorem repair_segment_called (o : RepairOracle) (image_uuid : String)
    (original_image_path : String) (missing : MissingSet) :
    (complete_missing_preparation o image_uuid original_image_path missing).2.segment_called =
      missing.segmented_image := rfl

/-- Unlinking the staged temp file restores the previous uploads
directory, provided no prior file shares the temp path. -/
theorem filter_drop_temp (l : List UFile) (t : UFile)
    (h : ∀ g ∈ l, pathOf g ≠ pathOf t) :
    (l ++ [t]).filter (fun g => !(pathOf g == pathOf t)) = l := by
  rw [List.filter_append]
  have h1 : l.filter (fun g => !(pathOf g == pathOf t)) = l :=
    List.filter_eq_self.mpr (fun g hg => by simp [h g hg])
  have h2 : [t].filter (fun g => !(pathOf g == pathOf t)) = [] := by simp
  rw [h1, h2, List.append_nil]

/-- A validated upload request reduces to the staged body. -/
theorem upload_image_valid (oSeg : Option String) (oRepair : RepairOracle)
    (oLoad : Option PyVal) (session_id image_uuid : String) (now : Nat)
    (st : AppState) (req : UploadReq)
    (hv : req.hasFile = true) (hf : req.filename ≠ "")
    (he : allowed_extensions.contains (lowerStr (pathSuffix req.filename)) = true) :
    upload_image oSeg oRepair oLoad session_id image_uuid now st req =
      upload_image_staged oSeg oRepair oLoad session_id image_uuid now st req
        (lowerStr (pathSuffix req.filename)) := by
  have he2 : lowerStr (pathSuffix req.filename) ∈ allowed_extensions :=
    List.elem_iff.mp he
  unfold upload_image
  rw [if_neg (by simp [hv]), if_neg hf, if_neg (by simp [he2])]

/-- A staged upload whose dedup scan finds a prior file dispatches to the
dedup branch on that file, with the temp file unlinked. -/
theorem upload_image_staged_find_some (oSeg : Option String)
    (oR : RepairOracle) (oL : Option PyVal) (sid uuid : String) (now : Nat)
    (st : AppState) (req : UploadReq) (ext : String) (f : UFile)
    (hfind : find_existing_image_by_md5
        (st.uploads ++ [(⟨"temp_" ++ uuid, ext, req.content⟩ : UFile)])
        (calculate_file_md5 req.content)
        (pathOf ⟨"temp_" ++ uuid, ext, req.content⟩) = some f) :
    upload_image_staged oSeg oR oL sid uuid now st req ext =
      upload_dedup_branch oR oL sid now st
        ((st.uploads ++ [(⟨"temp_" ++ uuid, ext, req.content⟩ : UFile)]).filter
          (fun g => !(pathOf g ==
            pathOf (⟨"temp_" ++ uuid, ext, req.content⟩ : UFile))))
        (calculate_file_md5 req.content) f := by
  simp only [upload_image_staged]
  rw [hfind]

/-- A staged upload whose dedup scan finds nothing dispatches to the
new-image branch. -/
theorem upload_image_staged_find_none (oSeg : Option String)
    (oR : RepairOracle) (oL : Option PyVal) (sid uuid : String) (now : Nat)
    (st : AppState) (req : UploadReq) (ext : String)
    (hfind : find_existing_image_by_md5
        (st.uploads ++ [(⟨"temp_" ++ uuid, ext, req.content⟩ : UFile)])
        (calculate_file_md5 req.content)
        (pathOf ⟨"temp_" ++ uuid, ext, req.content⟩) = Option.none) :
    upload_image_staged oSeg oR oL sid uuid now st req ext =
      upload_new_branch oSeg sid uuid now st
        ((st.uploads ++ [(⟨"temp_" ++ uuid, ext, req.content⟩ : UFile)]).filter
          (fun g => !(pathOf g ==
            pathOf (⟨"temp_" ++ uuid, ext, req.content⟩ : UFile))))
        (calculate_file_md5 req.content) ext req.content := by
  simp only [upload_image_staged]
  rw [hfind]

/-- The dedup branch reuses the avatar identity of the found file (its
stem), dispatches no segmentation call, and leaves the unlinked uploads
directory as handed to it. -/
theorem upload_dedup_branch_spec (oR : RepairOracle) (oL : Option PyVal)
    (sid : String) (now : Nat) (st : AppState) (uploadsAfter : List UFile)
    (file_md5 : String) (existing : UFile) :
    ∃ s, (upload_dedup_branch oR oL sid now st uploadsAfter file_md5 existing).session =
        some s ∧
      s.image_uuid = existing.stem ∧
      (upload_dedup_branch oR oL sid now st uploadsAfter file_md5 existing).segment_calls = 0 ∧
      (upload_dedup_branch oR oL sid now st uploadsAfter file_md5 existing).state.uploads =
        uploadsAfter := by
  simp only [upload_dedup_branch]
  split
  · exact ⟨_, rfl, rfl, rfl, rfl⟩
  · refine ⟨_, rfl, rfl, ?_, rfl⟩
    show (if (check_preparation_completeness existing.stem st.gen).1.any
        (fun kv => kv.1 == "segmented_image") = true then (1 : Nat) else 0) = 0
    rw [check_no_segmented_key]
    rfl

/-- The new-image branch mints the fresh identity and appends the renamed
original to the unlinked uploads directory. -/
theorem upload_new_branch_spec (oSeg : Option String)
    (sid uuid : String) (now : Nat) (st : AppState)
    (uploads_unlinked : List UFile) (file_md5 file_ext content : String) :
    ∃ s, (upload_new_branch oSeg sid uuid now st uploads_unlinked
        file_md5 file_ext content).session = some s ∧
      s.image_uuid = uuid ∧
      (upload_new_branch oSeg sid uuid now st uploads_unlinked
        file_md5 file_ext content).state.uploads =
        uploads_unlinked ++ [⟨uuid, file_ext, content⟩] :=
  ⟨_, rfl, rfl, rfl⟩

/-- C5: for all uploaded byte contents, submitting the identical bytes a
second time resolves to the same avatar identity the first upload produced
(the stored session records carry the same image_uuid) and the second
submission dispatches no stage-1 segmentation call.  The hypotheses state
that both requests pass validation, carry identical bytes, and that the
freshly minted temp and canonical file names collide with no stored path
(the source draws them from fresh UUIDs). -/
theorem upload_dedup_same_identity
    (oSeg1 oSeg2 : Option String) (oR1 oR2 : RepairOracle)
    (oL1 oL2 : Option PyVal) (sid1 sid2 uuid1 uuid2 : String) (n1 n2 : Nat)
    (st : AppState) (req1 req2 : UploadReq)
    (hv1 : req1.hasFile = true) (hf1 : req1.filename ≠ "")
    (he1 : allowed_extensions.contains (lowerStr (pathSuffix req1.filename)) = true)
    (hv2 : req2.hasFile = true) (hf2 : req2.filename ≠ "")
    (he2 : allowed_extensions.contains (lowerStr (pathSuffix req2.filename)) = true)
    (hb : req2.content = req1.content)
    (hfresh1 : ∀ g ∈ st.uploads, pathOf g ≠
        pathOf ⟨"temp_" ++ uuid1, lowerStr (pathSuffix req1.filename), req1.content⟩)
    (hfresh2 : ∀ g ∈ st.uploads, pathOf g ≠
        pathOf ⟨"temp_" ++ uuid2, lowerStr (pathSuffix req2.filename), req2.content⟩)
    (hfresh3 : pathOf ⟨uuid1, lowerStr (pathSuffix req1.filename), req1.content⟩ ≠
        pathOf ⟨"temp_" ++ uuid2, lowerStr (pathSuffix req2.filename), req2.content⟩) :
    ∃ s1 s2,
      (upload_image oSeg1 oR1 oL1 sid1 uuid1 n1 st req1).session = some s1 ∧
      (upload_image oSeg2 oR2 oL2 sid2 uuid2 n2
        (upload_image oSeg1 oR1 oL1 sid1 uuid1 n1 st req1).state req2).session =
        some s2 ∧
      s2.image_uuid = s1.image_uuid ∧
      (upload_image oSeg2 oR2 oL2 sid2 uuid2 n2
        (upload_image oSeg1 oR1 oL1 sid1 uuid1 n1 st req1).state req2).segment_calls =
        0 := by
  rw [upload_image_valid oSeg1 oR1 oL1 sid1 uuid1 n1 st req1 hv1 hf1 he1]
  rcases hfind1 : find_existing_image_by_md5
      (st.uploads ++
        [(⟨"temp_" ++ uuid1, lowerStr (pathSuffix req1.filename), req1.content⟩ : UFile)])
      (calculate_file_md5 req1.content)
      (pathOf ⟨"temp_" ++ uuid1, lowerStr (pathSuffix req1.filename), req1.content⟩)
    with _ | f
  · -- first upload is a genuinely new image
    rw [upload_image_staged_find_none oSeg1 oR1 oL1 sid1 uuid1 n1 st req1 _ hfind1]
    rw [filter_drop_temp st.uploads _ hfresh1]
    obtain ⟨s1, hs1, hsu1, hupl1⟩ := upload_new_branch_spec oSeg1 sid1 uuid1 n1 st
      st.uploads (calculate_file_md5 req1.content)
      (lowerStr (pathSuffix req1.filename)) req1.content
    have hfind1u := hfind1
    unfold find_existing_image_by_md5 at hfind1u
    have hnob : ∀ g ∈ st.uploads, (g.content == req1.content) = false := by
      intro g hg
      have hx := List.find?_eq_none.mp hfind1u g (List.mem_append_left _ hg)
      have hp : (pathOf g !=
          pathOf (⟨"temp_" ++ uuid1, lowerStr (pathSuffix req1.filename),
            req1.content⟩ : UFile)) = true := by
        simp only [bne_iff_ne, ne_eq]
        exact hfresh1 g hg
      simp [calculate_file_md5, hp] at hx
      simpa using hx
    have hfind2 : find_existing_image_by_md5
        ((upload_new_branch oSeg1 sid1 uuid1 n1 st st.uploads
            (calculate_file_md5 req1.content) (lowerStr (pathSuffix req1.filename))
            req1.content).state.uploads ++
          [(⟨"temp_" ++ uuid2, lowerStr (pathSuffix req2.filename),
            req2.content⟩ : UFile)])
        (calculate_file_md5 req2.content)
        (pathOf ⟨"temp_" ++ uuid2, lowerStr (pathSuffix req2.filename), req2.content⟩) =
        some ⟨uuid1, lowerStr (pathSuffix req1.filename), req1.content⟩ := by
      rw [hupl1]
      unfold find_existing_image_by_md5
      rw [List.append_assoc, List.find?_append]
      have hl : List.find? (fun g => calculate_file_md5 g.content ==
          calculate_file_md5 req2.content &&
          pathOf g != pathOf (⟨"temp_" ++ uuid2, lowerStr (pathSuffix req2.filename),
            req2.content⟩ : UFile)) st.uploads = Option.none := by
        rw [List.find?_eq_none]
        intro g hg
        simp [calculate_file_md5, hb, hnob g hg]
      rw [hl]
      have hp3 : (pathOf (⟨uuid1, lowerStr (pathSuffix req1.filename),
          req1.content⟩ : UFile) !=
          pathOf (⟨"temp_" ++ uuid2, lowerStr (pathSuffix req2.filename),
            req1.content⟩ : UFile)) = true := by
        simp only [bne_iff_ne, ne_eq]
        exact hfresh3
      simp [List.find?, calculate_file_md5, hb, hp3]
    rw [upload_image_valid oSeg2 oR2 oL2 sid2 uuid2 n2 _ req2 hv2 hf2 he2]
    rw [upload_image_staged_find_some oSeg2 oR2 oL2 sid2 uuid2 n2 _ req2 _ _ hfind2]
    obtain ⟨s2, hs2, hsu2, hseg2, _⟩ := upload_dedup_branch_spec oR2 oL2 sid2 n2 _ _
      (calculate_file_md5 req2.content)
      ⟨uuid1, lowerStr (pathSuffix req1.filename), req1.content⟩
    refine ⟨s1, s2, hs1, hs2, ?_, hseg2⟩
    rw [hsu2, hsu1]
  · -- first upload already dedups to a stored file f
    rw [upload_image_staged_find_some oSeg1 oR1 oL1 sid1 uuid1 n1 st req1 _ f hfind1]
    rw [filter_drop_temp st.uploads _ hfresh1]
    obtain ⟨s1, hs1, hsu1, hseg1, hupl1⟩ := upload_dedup_branch_spec oR1 oL1 sid1 n1 st
      st.uploads (calculate_file_md5 req1.content) f
    have hfind1u := hfind1
    unfold find_existing_image_by_md5 at hfind1u
    rw [List.find?_append] at hfind1u
    have ht1 : List.find? (fun g => calculate_file_md5 g.content ==
        calculate_file_md5 req1.content &&
        pathOf g != pathOf (⟨"temp_" ++ uuid1, lowerStr (pathSuffix req1.filename),
          req1.content⟩ : UFile))
        [(⟨"temp_" ++ uuid1, lowerStr (pathSuffix req1.filename),
          req1.content⟩ : UFile)] = Option.none := by
      simp [List.find?]
    rw [ht1] at hfind1u
    rw [Option.or_none] at hfind1u
    have hfq2 : List.find? (fun g => calculate_file_md5 g.content ==
        calculate_file_md5 req2.content &&
        pathOf g != pathOf (⟨"temp_" ++ uuid2, lowerStr (pathSuffix req2.filename),
          req2.content⟩ : UFile)) st.uploads = some f := by
      have hcong := find?_congr_pred
        (fun g => calculate_file_md5 g.content == calculate_file_md5 req2.content &&
          pathOf g != pathOf (⟨"temp_" ++ uuid2, lowerStr (pathSuffix req2.filename),
            req2.content⟩ : UFile))
        (fun g => calculate_file_md5 g.content == calculate_file_md5 req1.content &&
          pathOf g != pathOf (⟨"temp_" ++ uuid1, lowerStr (pathSuffix req1.filename),
            req1.content⟩ : UFile))
        st.uploads ?_
      · rw [hcong]
        exact hfind1u
      · intro g hg
        have e1 : (pathOf g != pathOf (⟨"temp_" ++ uuid1,
            lowerStr (pathSuffix req1.filename), req1.content⟩ : UFile)) = true := by
          simp only [bne_iff_ne, ne_eq]
          exact hfresh1 g hg
        have e2 : (pathOf g != pathOf (⟨"temp_" ++ uuid2,
            lowerStr (pathSuffix req2.filename), req1.content⟩ : UFile)) = true := by
          simp only [bne_iff_ne, ne_eq]
          exact hfresh2 g hg
        simp [calculate_file_md5, hb, e1, e2]
    have hfind2 : find_existing_image_by_md5
        ((upload_dedup_branch oR1 oL1 sid1 n1 st st.uploads
            (calculate_file_md5 req1.content) f).state.uploads ++
          [(⟨"temp_" ++ uuid2, lowerStr (pathSuffix req2.filename),
            req2.content⟩ : UFile)])
        (calculate_file_md5 req2.content)
        (pathOf ⟨"temp_" ++ uuid2, lowerStr (pathSuffix req2.filename), req2.content⟩) =
        some f := by
      rw [hupl1]
      unfold find_existing_image_by_md5
      rw [List.find?_append, hfq2]
      rfl
    rw [upload_image_valid oSeg2 oR2 oL2 sid2 uuid2 n2 _ req2 hv2 hf2 he2]
    rw [upload_image_staged_find_some oSeg2 oR2 oL2 sid2 uuid2 n2 _ req2 _ f hfind2]
    obtain ⟨s2, hs2, hsu2, hseg2, _⟩ := upload_dedup_branch_spec oR2 oL2 sid2 n2 _ _
      (calculate_file_md5 req2.content) f
    refine ⟨s1, s2, hs1, hs2, ?_, hseg2⟩
    rw [hsu2, hsu1]

/-- Witness for C5: a concrete empty store, two uploads of the same bytes
with fresh identities u1 and u2. -/
theorem upload_dedup_same_identity_witness :
    ∃ s1 s2,
      (upload_image (some "temp/seg.jpg")
          ⟨Option.none, Option.none, Option.none, Option.none⟩ Option.none
          "sid1" "u1" 10 ⟨[], [], []⟩ ⟨true, "photo.jpg", "BYTES"⟩).session =
        some s1 ∧
      (upload_image (some "temp/seg2.jpg")
          ⟨Option.none, Option.none, Option.none, Option.none⟩ Option.none
          "sid2" "u2" 20
          (upload_image (some "temp/seg.jpg")
            ⟨Option.none, Option.none, Option.none, Option.none⟩ Option.none
            "sid1" "u1" 10 ⟨[], [], []⟩ ⟨true, "photo.jpg", "BYTES"⟩).state
          ⟨true, "photo.jpg", "BYTES"⟩).session = some s2 ∧
      s2.image_uuid = s1.image_uuid ∧
      (upload_image (some "temp/seg2.jpg")
          ⟨Option.none, Option.none, Option.none, Option.none⟩ Option.none
          "sid2" "u2" 20
          (upload_image (some "temp/seg.jpg")
            ⟨Option.none, Option.none, Option.none, Option.none⟩ Option.none
            "sid1" "u1" 10 ⟨[], [], []⟩ ⟨true, "photo.jpg", "BYTES"⟩).state
          ⟨true, "photo.jpg", "BYTES"⟩).segment_calls = 0 :=
  upload_dedup_same_identity (some "temp/seg.jpg") (some "temp/seg2.jpg")
    ⟨Option.none, Option.none, Option.none, Option.none⟩
    ⟨Option.none, Option.none, Option.none, Option.none⟩
    Option.none Option.none "sid1" "sid2" "u1" "u2" 10 20 ⟨[], [], []⟩
    ⟨true, "photo.jpg", "BYTES"⟩ ⟨true, "photo.jpg", "BYTES"⟩
    rfl (by decide) (by decide) rfl (by decide) (by decide) rfl
    (by decide) (by decide) (by decide)
